import Mathlib

/-!
Shallow embedding of `src/components/object-detection.tsx`, a React client
component that drives a live object-detection loop: the detection loop
`captureAndDetect` (lines 31-97), the overlay renderer `drawDetections`
(lines 99-141), and the readiness monitor `checkBackend` /
`forceStartDetection` (lines 143-211).

React `useState` semantics are modelled explicitly.  A running closure reads
the state values captured at the render that created it: calling a setter
never changes a binding the closure has already captured, so the guards
`consecutiveErrors > 5` (lines 70, 89) and `if (loadingTimeout)` (lines 148,
181, 193, 203) see render snapshots, not the values just written.  Step
functions therefore take both the closure snapshot `snap` and the committed
state that the setters update.  `runFresh` composes detection cycles under
the most charitable refresh policy — each cycle's snapshot is the committed
state left by the previous cycle; the real `requestAnimationFrame` chain
keeps re-invoking the closure of the render that started it, so the real
snapshots are only staler (never fresher) than these.

Timestamps and pixel quantities are modelled as rationals; the arithmetic
the program performs on them (`Math.round(1000 / delta)`,
`Math.round(score * 100)`, coordinate offsets) is exact at this scale.
-/

/-- JS `Math.round`: round half toward positive infinity. -/
def jsRound (q : ℚ) : ℤ := (q + 1 / 2).floor

/-- `interface Prediction` (lines 9-13); `bbox` is `[x, y, width, height]`.
`cls` stands for the reserved word `class`. -/
structure Prediction where
  bbox : ℚ × ℚ × ℚ × ℚ
  cls : String
  score : ℚ
deriving DecidableEq

/-- The `detectionCount` record `\x7b book: _, laptop: _ \x7d` (line 25): a
record with exactly the fields `book` and `laptop`. -/
structure DetectionCount where
  book : ℕ
  laptop : ℕ
deriving DecidableEq

/-- `data.predictions.filter((p) => p.class === c).length` (lines 77-78). -/
def countClass (preds : List Prediction) (c : String) : ℕ :=
  (preds.filter (fun p => p.cls == c)).length

/-- The argument of `setDetectionCount` (lines 80-83), computed from the
current response's prediction list alone. -/
def countsOf (preds : List Prediction) : DetectionCount :=
  ⟨countClass preds "book", countClass preds "laptop"⟩

/-- Canvas 2D context state used by `drawDetections`.  `initCtx` holds the
HTML canvas defaults, re-established each call because assigning
`canvas.width` / `canvas.height` (lines 106-107) resets the context. -/
structure CtxState where
  strokeStyle : String
  fillStyle : String
  lineWidth : ℚ
  font : String
deriving DecidableEq

def initCtx : CtxState := ⟨"#000000", "#000000", 1, "10px sans-serif"⟩

/-- Drawing commands issued to the canvas, each recording the context
attributes in effect when issued. -/
inductive DrawCmd where
  | setCanvasSize (w h : ℚ)
  | clearRect (x y w h : ℚ)
  | strokeRect (color : String) (lineWidth : ℚ) (x y w h : ℚ)
  | fillRect (color : String) (x y w h : ℚ)
  | fillText (color : String) (font : String) (text : String) (x y : ℚ)
deriving DecidableEq

/-- Label text built at lines 130-133: `Book NN%` when the class is `book`,
otherwise `Laptop NN%` — every class other than `book` falls into the
`Laptop` arm. -/
def labelFor (p : Prediction) : String :=
  if p.cls = "book" then "Book " ++ toString (jsRound (p.score * 100)) ++ "%"
  else "Laptop " ++ toString (jsRound (p.score * 100)) ++ "%"

/-- One iteration of the `predictions.forEach` body (lines 114-140).
`measure font text` stands for `ctx.measureText(text).width` under the given
current font.  Note the source sets stroke/fill colors only for the classes
`book` and `laptop` (lines 117-123) and sets `ctx.font` only after the label
background is measured and filled (line 138), so the measurement uses the
font left by the previous iteration (the canvas default on the first one).
Returns the context state handed to the next iteration and the emitted
commands. -/
def drawOne (measure : String → String → ℚ) (ctx : CtxState) (p : Prediction) :
    CtxState × List DrawCmd :=
  let x := p.bbox.1
  let y := p.bbox.2.1
  let w := p.bbox.2.2.1
  let h := p.bbox.2.2.2
  let ctx1 : CtxState :=
    if p.cls = "book" then { ctx with strokeStyle := "red", fillStyle := "red" }
    else if p.cls = "laptop" then { ctx with strokeStyle := "blue", fillStyle := "blue" }
    else ctx
  let ctx2 : CtxState := { ctx1 with lineWidth := 2 }
  let label := labelFor p
  let textWidth := measure ctx2.font label
  let ctx3 : CtxState := { ctx2 with fillStyle := "white", font := "16px Arial" }
  (ctx3,
    [DrawCmd.strokeRect ctx2.strokeStyle 2 x y w h,
     DrawCmd.fillRect ctx2.fillStyle x (y - 20) (textWidth + 10) 20,
     DrawCmd.fillText "white" "16px Arial" label (x + 5) (y - 5)])

/-- The `predictions.forEach` loop (line 114), threading the context state. -/
def drawList (measure : String → String → ℚ) : CtxState → List Prediction → List DrawCmd
  | _, [] => []
  | ctx, p :: ps =>
      let r := drawOne measure ctx p
      r.2 ++ drawList measure r.1 ps

/-- `drawDetections` (lines 99-141): size the canvas to the video's native
dimensions, clear it, then draw every prediction.  Assumes the canvas and
video refs are mounted (guard at line 100). -/
def drawDetections (measure : String → String → ℚ) (preds : List Prediction)
    (videoWidth videoHeight : ℚ) : List DrawCmd :=
  DrawCmd.setCanvasSize videoWidth videoHeight ::
  DrawCmd.clearRect 0 0 videoWidth videoHeight ::
  drawList measure initCtx preds

/-- Visible overlay surface: the canvas dimensions plus the shape commands
drawn since the last wipe.  Assigning `canvas.width` / `canvas.height` resets
the bitmap; `clearRect` over the whole canvas erases everything (partial
clears never occur in this program and are modelled as no-ops). -/
structure Surface where
  dims : ℚ × ℚ
  shapes : List DrawCmd
deriving DecidableEq

def execCmd (s : Surface) : DrawCmd → Surface
  | .setCanvasSize w h => ⟨(w, h), []⟩
  | .clearRect x y w h => if x = 0 ∧ y = 0 ∧ (w, h) = s.dims then ⟨s.dims, []⟩ else s
  | c => ⟨s.dims, s.shapes ++ [c]⟩

def execCmds : Surface → List DrawCmd → Surface
  | s, [] => s
  | s, c :: cs => execCmds (execCmd s c) cs

/-- The component state touched by `captureAndDetect` (useState fields,
lines 19-27). -/
structure CompState where
  error : Option String
  isDetecting : Bool
  consecutiveErrors : ℕ
  detectionCount : DetectionCount
  fps : ℤ
  lastFrameTime : ℚ
deriving DecidableEq

/-- Outcome of one `captureAndDetect` invocation as seen at its suspension
points: the video element not ready (line 35), a null screenshot (line 49),
the `/detect` response with a non-ok status and its error `detail` (line 65),
an ok response with parsed predictions (line 75), or an exception thrown
elsewhere in the try block and caught at line 87.  `now` is the value of
`performance.now()` at line 40. -/
inductive DetectEvent where
  | videoNotReady
  | noScreenshot (now : ℚ)
  | respFail (now : ℚ) (detail : String)
  | respOk (now : ℚ) (preds : List Prediction)
  | netThrow (now : ℚ) (msg : String)
deriving DecidableEq

/-- The `performance.now()` timestamp an event carries, if the invocation
reaches line 40 at all. -/
def evNow : DetectEvent → Option ℚ
  | .videoNotReady => none
  | .noScreenshot now => some now
  | .respFail now _ => some now
  | .respOk now _ => some now
  | .netThrow now _ => some now

def isFailEv : DetectEvent → Bool
  | .respFail _ _ => true
  | _ => false

/-- Lines 40-45: compute fps from the snapshot's `lastFrameTime` (the value 0
encodes "no previous frame") and record the new timestamp. -/
def fpsUpdate (snap committed : CompState) (now : ℚ) : CompState :=
  let c :=
    if snap.lastFrameTime > 0 then
      { committed with fps := jsRound (1000 / (now - snap.lastFrameTime)) }
    else committed
  { c with lastFrameTime := now }

/-- Result of one detection cycle: the committed state after the setter calls,
whether `requestAnimationFrame(captureAndDetect)` was reached, and the draw
commands issued. -/
structure CycleResult where
  state : CompState
  resched : Bool
  cmds : List DrawCmd
deriving DecidableEq

/-- One `captureAndDetect` invocation (lines 31-97).  `snap` is the closure's
render snapshot of the state; `committed` is the committed state the setters
update.  `setConsecutiveErrors((prev) => prev + 1)` (line 68) is a functional
update and reads the committed value, while the guards at lines 70 and 89
read the snapshot binding `consecutiveErrors`, which necessarily predates the
increment issued in the same invocation.  Assumes the webcam and canvas refs
are mounted (line 32 guard otherwise returns without rescheduling). -/
def captureStep (measure : String → String → ℚ) (videoW videoH : ℚ)
    (snap committed : CompState) (ev : DetectEvent) : CycleResult :=
  if snap.isDetecting = false then ⟨committed, false, []⟩
  else
    match ev with
    | .videoNotReady => ⟨committed, true, []⟩
    | .noScreenshot now => ⟨fpsUpdate snap committed now, true, []⟩
    | .respFail now detail =>
        let c1 := fpsUpdate snap committed now
        let c2 := { c1 with consecutiveErrors := c1.consecutiveErrors + 1 }
        if snap.consecutiveErrors > 5 then
          ⟨{ c2 with
              error := some ("Detection error: Backend error: " ++ detail),
              isDetecting := false }, false, []⟩
        else ⟨c2, true, []⟩
    | .respOk now preds =>
        let c1 := fpsUpdate snap committed now
        let c2 := { c1 with consecutiveErrors := 0, detectionCount := countsOf preds }
        ⟨c2, true, drawDetections measure preds videoW videoH⟩
    | .netThrow now msg =>
        let c1 := fpsUpdate snap committed now
        if snap.consecutiveErrors > 5 then
          ⟨{ c1 with error := some ("Detection error: " ++ msg), isDetecting := false },
            false, []⟩
        else ⟨c1, true, []⟩

/-- Compose detection cycles under the most charitable snapshot-refresh
policy: each invocation's snapshot is the committed state left by the
previous one.  (The real `requestAnimationFrame` chain keeps invoking the
closure of the render that started it, so the real snapshots are the
chain-start values — never fresher than these.)  The chain ends when an
invocation does not reschedule. -/
def runFresh (measure : String → String → ℚ) (videoW videoH : ℚ) :
    CompState → List DetectEvent → CompState
  | s, [] => s
  | s, e :: es =>
      let r := captureStep measure videoW videoH s s e
      if r.resched then runFresh measure videoW videoH r.state es else r.state

/-- A trivial text-measuring function for concrete evaluations. -/
def m0 : String → String → ℚ := fun _ _ => 0

/-- The useState initial values (lines 19-27) at the moment the detection
loop starts (`isDetecting` has been set true by the ready branch or by
`forceStartDetection`; a fresh session has `consecutiveErrors = 0`). -/
def startState : CompState :=
  ⟨none, true, 0, ⟨0, 0⟩, 0, 0⟩

def sixFails : List DetectEvent :=
  [.respFail 100 "e1", .respFail 200 "e2", .respFail 300 "e3",
   .respFail 400 "e4", .respFail 500 "e5", .respFail 600 "e6"]

def fiveFails : List DetectEvent :=
  [.respFail 100 "e1", .respFail 200 "e2", .respFail 300 "e3",
   .respFail 400 "e4", .respFail 500 "e5"]

/-- The prediction set of the spec's class-count scenario. -/
def demoPreds : List Prediction :=
  [⟨(0, 0, 1, 1), "book", 9 / 10⟩, ⟨(0, 0, 1, 1), "book", 2 / 5⟩,
   ⟨(0, 0, 1, 1), "laptop", 4 / 5⟩]

def catPred : Prediction := ⟨(0, 0, 10, 10), "cat", 4 / 5⟩

/-- Kinds of pending host timers used by the readiness monitor: the 30000 ms
watchdog armed at line 165, and the anonymous 2000 ms poll armed at line 190. -/
inductive TKind where
  | watchdogT
  | pollT
deriving DecidableEq

structure Tmr where
  id : ℕ
  due : ℕ
  kind : TKind
deriving DecidableEq

/-- Component state touched by the readiness monitor (lines 19-24). -/
structure RState where
  backendStatus : String
  error : Option String
  isModelLoading : Bool
  isDetecting : Bool
  loadingTimeout : Option ℕ
deriving DecidableEq

/-- Readiness system: React state plus the host's pending timers and a fresh
timer-id supply. -/
structure RSys where
  st : RState
  timers : List Tmr
  nextId : ℕ
deriving DecidableEq

/-- Initial useState values: `backendStatus = "connecting"` (line 22),
`isModelLoading = true` (line 19), no timer stored. -/
def initRSys : RSys := ⟨⟨"connecting", none, true, false, none⟩, [], 0⟩

/-- The clearing pattern at lines 148-151, 181-184, 193-196, 203-206:
`if (loadingTimeout) clearTimeout(loadingTimeout); setLoadingTimeout(null)`,
where `loadingTimeout` is the closure's render snapshot `snapLT`. -/
def clearIfSnap (snapLT : Option ℕ) (sys : RSys) : RSys :=
  match snapLT with
  | some j =>
      { sys with
        st := { sys.st with loadingTimeout := none },
        timers := sys.timers.filter (fun tm => tm.id != j) }
  | none => sys

/-- `checkBackend` entry (lines 161-170): set status `connecting`, arm a
30000 ms watchdog that will run `forceStartDetection`, and store its id via
`setLoadingTimeout`. -/
def checkBackendStart (t : ℕ) (sys : RSys) : RSys :=
  { st := { sys.st with backendStatus := "connecting", loadingTimeout := some sys.nextId },
    timers := sys.timers ++ [⟨sys.nextId, t + 30000, TKind.watchdogT⟩],
    nextId := sys.nextId + 1 }

/-- Lines 180-187: health response ok with `model_loaded` true.  `snapLT` is
the `loadingTimeout` binding captured by the running closure's render, which
predates this invocation's `setLoadingTimeout` (it is `null` on the mount
invocation and on every timer-scheduled re-invocation, since those reuse the
mount render's closure). -/
def resolveLoaded (snapLT : Option ℕ) (sys : RSys) : RSys :=
  let s1 := clearIfSnap snapLT sys
  { s1 with
    st := { s1.st with backendStatus := "ready", isModelLoading := false,
                       isDetecting := true } }

/-- Lines 188-191: response ok but model not loaded: show `model_loading` and
schedule a 2000 ms poll that re-invokes `checkBackend`.  The poll timer's id
is not stored anywhere. -/
def resolveNotLoaded (t : ℕ) (sys : RSys) : RSys :=
  { sys with
    st := { sys.st with backendStatus := "model_loading" },
    timers := sys.timers ++ [⟨sys.nextId, t + 2000, TKind.pollT⟩],
    nextId := sys.nextId + 1 }

/-- Lines 192-200: non-ok health response. -/
def resolveHttpFail (snapLT : Option ℕ) (sys : RSys) : RSys :=
  let s1 := clearIfSnap snapLT sys
  { s1 with
    st := { s1.st with
      error := some "Backend service returned an error. Please check the Python server logs.",
      backendStatus := "error", isModelLoading := false } }

/-- Lines 201-210: the health fetch threw. -/
def resolveNetFail (snapLT : Option ℕ) (sys : RSys) : RSys :=
  let s1 := clearIfSnap snapLT sys
  { s1 with
    st := { s1.st with
      error := some "Cannot connect to the backend. Please make sure the Python server is running.",
      backendStatus := "error", isModelLoading := false } }

/-- `forceStartDetection` (lines 143-152). -/
def forceStartDetection (snapLT : Option ℕ) (sys : RSys) : RSys :=
  clearIfSnap snapLT
    { sys with
      st := { sys.st with error := none, isModelLoading := false,
                          isDetecting := true, backendStatus := "ready" } }

/-- The watchdog armed at line 165 fires: the pending timer is consumed and
`forceStartDetection` runs with the firing closure's snapshot. -/
def watchdogFire (tid : ℕ) (snapLT : Option ℕ) (sys : RSys) : RSys :=
  forceStartDetection snapLT
    { sys with
      timers := sys.timers.filter (fun tm => !(tm.id == tid && tm.kind == TKind.watchdogT)) }

/-- The 2000 ms poll timer (line 190) fires: the pending timer is consumed
and `checkBackend` starts again at time `t`. -/
def pollFire (t : ℕ) (tid : ℕ) (sys : RSys) : RSys :=
  checkBackendStart t
    { sys with
      timers := sys.timers.filter (fun tm => !(tm.id == tid && tm.kind == TKind.pollT)) }

/-- Happenings that can occur between the first `checkBackend` call and its
watchdog deadline in a run where no terminal health response (model loaded,
or error) arrives in that window: a non-loaded health response, or a 2000 ms
poll timer firing. -/
inductive PreStep where
  | notLoaded (t : ℕ)
  | poll (t : ℕ) (tid : ℕ)
deriving DecidableEq

def applyPre (sys : RSys) : PreStep → RSys
  | .notLoaded t => resolveNotLoaded t sys
  | .poll t tid => pollFire t tid sys

/-- The system right after the mount-effect call `checkBackend()` (line 214)
runs its synchronous prefix at time 0: watchdog id 0 due at 30000 is armed. -/
def sysAfterFirstCall : RSys := checkBackendStart 0 initRSys

/-- `fpsUpdate` changes only the `fps` and `lastFrameTime` fields. -/
theorem fpsUpdate_fields (snap committed : CompState) (now : ℚ) :
    (fpsUpdate snap committed now).error = committed.error ∧
    (fpsUpdate snap committed now).isDetecting = committed.isDetecting ∧
    (fpsUpdate snap committed now).consecutiveErrors = committed.consecutiveErrors ∧
    (fpsUpdate snap committed now).detectionCount = committed.detectionCount ∧
    (fpsUpdate snap committed now).lastFrameTime = now := by
  unfold fpsUpdate
  split <;> simp

/-- When the snapshot holds a positive previous timestamp, `fpsUpdate`
computes the fps from it. -/
theorem fpsUpdate_fps (snap committed : CompState) (now : ℚ)
    (h : 0 < snap.lastFrameTime) :
    (fpsUpdate snap committed now).fps = jsRound (1000 / (now - snap.lastFrameTime)) := by
  unfold fpsUpdate
  split
  · simp
  · exact absurd h (by assumption)

/-- A below-threshold failed response: the counter is incremented, nothing
else observable changes, and the loop reschedules. -/
theorem captureStep_fail_fields (measure : String → String → ℚ) (vw vh : ℚ)
    (snap committed : CompState) (now : ℚ) (detail : String)
    (h1 : snap.isDetecting = true) (h2 : snap.consecutiveErrors ≤ 5) :
    (captureStep measure vw vh snap committed (.respFail now detail)).resched = true ∧
    (captureStep measure vw vh snap committed (.respFail now detail)).cmds = [] ∧
    (captureStep measure vw vh snap committed (.respFail now detail)).state.isDetecting
      = committed.isDetecting ∧
    (captureStep measure vw vh snap committed (.respFail now detail)).state.error
      = committed.error ∧
    (captureStep measure vw vh snap committed (.respFail now detail)).state.consecutiveErrors
      = committed.consecutiveErrors + 1 := by
  have hng : ¬ snap.consecutiveErrors > 5 := by omega
  unfold captureStep
  rw [h1]
  simp only [Bool.true_eq_false, if_false, if_neg hng]
  have hf := fpsUpdate_fields snap committed now
  simp [hf.1, hf.2.1, hf.2.2.1]

/-- A successful response: the counter resets, the counts are recomputed from
the response, the loop reschedules. -/
theorem captureStep_ok_fields (measure : String → String → ℚ) (vw vh : ℚ)
    (snap committed : CompState) (now : ℚ) (preds : List Prediction)
    (h1 : snap.isDetecting = true) :
    (captureStep measure vw vh snap committed (.respOk now preds)).resched = true ∧
    (captureStep measure vw vh snap committed (.respOk now preds)).state.isDetecting
      = committed.isDetecting ∧
    (captureStep measure vw vh snap committed (.respOk now preds)).state.error
      = committed.error ∧
    (captureStep measure vw vh snap committed (.respOk now preds)).state.consecutiveErrors = 0 ∧
    (captureStep measure vw vh snap committed (.respOk now preds)).state.detectionCount
      = countsOf preds ∧
    (captureStep measure vw vh snap committed (.respOk now preds)).cmds
      = drawDetections measure preds vw vh := by
  unfold captureStep
  rw [h1]
  simp only [Bool.true_eq_false, if_false]
  have hf := fpsUpdate_fields snap committed now
  simp [hf.1, hf.2.1]

/-- An invocation that does not reschedule leaves `isDetecting = false`:
either the guard at line 32 saw a stopped session, or the fatal branch just
stopped it. -/
theorem captureStep_not_resched (measure : String → String → ℚ) (vw vh : ℚ)
    (s : CompState) (e : DetectEvent)
    (h : (captureStep measure vw vh s s e).resched = false) :
    (captureStep measure vw vh s s e).state.isDetecting = false := by
  by_cases hd : s.isDetecting = false
  · unfold captureStep
    rw [hd]
    simpa using hd
  · have hd' : s.isDetecting = true := by
      cases hb : s.isDetecting
      · exact absurd hb hd
      · rfl
    unfold captureStep at h ⊢
    rw [hd'] at h ⊢
    simp only [Bool.true_eq_false, if_false] at h ⊢
    cases e with
    | videoNotReady => simp at h
    | noScreenshot now => simp at h
    | respOk now preds => simp at h
    | respFail now detail =>
        by_cases hg : s.consecutiveErrors > 5
        · simp [hg]
        · simp [hg] at h
    | netThrow now msg =>
        by_cases hg : s.consecutiveErrors > 5
        · simp [hg]
        · simp [hg] at h

/-- A stopped session never restarts: every further cycle is a no-op. -/
theorem runFresh_stopped (measure : String → String → ℚ) (vw vh : ℚ) :
    ∀ (l : List DetectEvent) (s : CompState), s.isDetecting = false →
      runFresh measure vw vh s l = s
  | [], _, _ => rfl
  | e :: es, s, h => by
      unfold runFresh captureStep
      rw [h]
      simp

theorem runFresh_cons (measure : String → String → ℚ) (vw vh : ℚ)
    (s : CompState) (e : DetectEvent) (es : List DetectEvent) :
    runFresh measure vw vh s (e :: es)
      = if (captureStep measure vw vh s s e).resched = true
        then runFresh measure vw vh (captureStep measure vw vh s s e).state es
        else (captureStep measure vw vh s s e).state := rfl

/-- Cycle runs compose; when an early cycle stops the loop, the trailing
events are no-ops from the stopped state. -/
theorem runFresh_append (measure : String → String → ℚ) (vw vh : ℚ) :
    ∀ (xs ys : List DetectEvent) (s : CompState),
      runFresh measure vw vh s (xs ++ ys)
        = runFresh measure vw vh (runFresh measure vw vh s xs) ys
  | [], ys, s => rfl
  | x :: xs, ys, s => by
      rw [List.cons_append, runFresh_cons, runFresh_cons]
      by_cases hr : (captureStep measure vw vh s s x).resched = true
      · rw [if_pos hr, if_pos hr]
        exact runFresh_append measure vw vh xs ys _
      · rw [if_neg hr, if_neg hr]
        have hr' : (captureStep measure vw vh s s x).resched = false := by
          cases hb : (captureStep measure vw vh s s x).resched
          · rfl
          · exact absurd hb hr
        rw [runFresh_stopped measure vw vh ys _ (captureStep_not_resched measure vw vh s x hr')]

/-- Running a block of failed responses whose total stays within the
threshold keeps the loop alive, leaves the surfaced error untouched, and
adds the block's length to the counter. -/
theorem runFresh_fail_block (measure : String → String → ℚ) (vw vh : ℚ) :
    ∀ (fails : List DetectEvent) (s : CompState),
      (∀ e ∈ fails, isFailEv e = true) → s.isDetecting = true →
      s.consecutiveErrors + fails.length ≤ 5 →
      (runFresh measure vw vh s fails).isDetecting = true ∧
      (runFresh measure vw vh s fails).error = s.error ∧
      (runFresh measure vw vh s fails).consecutiveErrors
        = s.consecutiveErrors + fails.length
  | [], s, _, hd, _ => ⟨hd, rfl, rfl⟩
  | e :: es, s, hf, hd, hb => by
      have hfe : isFailEv e = true := hf e (List.mem_cons_self e es)
      cases e with
    | videoNotReady => simp [isFailEv] at hfe
    | noScreenshot now => simp [isFailEv] at hfe
    | respOk now preds => simp [isFailEv] at hfe
    | netThrow now msg => simp [isFailEv] at hfe
    | respFail now detail =>
        have hle : s.consecutiveErrors ≤ 5 := by
          have := hb
          simp [List.length_cons] at this
          omega
        have hstep := captureStep_fail_fields measure vw vh s s now detail hd hle
        rw [runFresh_cons, if_pos hstep.1]
        have ih := runFresh_fail_block measure vw vh es
          (captureStep measure vw vh s s (.respFail now detail)).state
          (fun x hx => hf x (List.mem_cons_of_mem _ hx))
          (by rw [hstep.2.2.1]; exact hd)
          (by rw [hstep.2.2.2.2]; simp [List.length_cons] at hb; omega)
        refine ⟨ih.1, ?_, ?_⟩
        · rw [ih.2.1, hstep.2.2.2.1]
        · rw [ih.2.2, hstep.2.2.2.2]
          simp [List.length_cons]
          omega

/-- Claim C2: for any sequence of at most 5 consecutive failed inference
calls followed by one successful call, the session never enters the fatal
error state at any point (every prefix of the run leaves `error = none` and
`isDetecting = true`), and the `consecutiveErrors` counter equals 0 after the
success.  Stated over any fresh session state (counter 0, no error, loop
running). -/
theorem c2_transient_failures_recover (measure : String → String → ℚ) (vw vh : ℚ)
    (fails : List DetectEvent) (hf : ∀ e ∈ fails, isFailEv e = true)
    (hlen : fails.length ≤ 5) (s : CompState)
    (h1 : s.isDetecting = true) (h2 : s.error = none) (h3 : s.consecutiveErrors = 0)
    (now : ℚ) (preds : List Prediction) :
    (∀ k : ℕ,
      (runFresh measure vw vh s
        ((fails ++ [DetectEvent.respOk now preds]).take k)).error = none ∧
      (runFresh measure vw vh s
        ((fails ++ [DetectEvent.respOk now preds]).take k)).isDetecting = true) ∧
    (runFresh measure vw vh s
      (fails ++ [DetectEvent.respOk now preds])).consecutiveErrors = 0 := by
  have hblock := runFresh_fail_block measure vw vh fails s hf h1 (by omega)
  have hmid1 : (runFresh measure vw vh s fails).isDetecting = true := hblock.1
  have hok := captureStep_ok_fields measure vw vh (runFresh measure vw vh s fails)
    (runFresh measure vw vh s fails) now preds hmid1
  have hfull : runFresh measure vw vh s (fails ++ [DetectEvent.respOk now preds])
      = (captureStep measure vw vh (runFresh measure vw vh s fails)
          (runFresh measure vw vh s fails) (DetectEvent.respOk now preds)).state := by
    rw [runFresh_append, runFresh_cons, if_pos hok.1]
    rfl
  constructor
  · intro k
    by_cases hk : k ≤ fails.length
    · rw [List.take_append_of_le_length hk]
      have hsub := runFresh_fail_block measure vw vh (fails.take k) s
        (fun e he => hf e (List.take_subset k fails he))
        h1
        (by
          have : (fails.take k).length ≤ fails.length := by
            rw [List.length_take]; omega
          omega)
      exact ⟨by rw [hsub.2.1, h2], hsub.1⟩
    · have hk2 : (fails ++ [DetectEvent.respOk now preds]).length ≤ k := by
        rw [List.length_append]
        simp
        omega
      rw [List.take_of_length_le hk2, hfull]
      refine ⟨?_, ?_⟩
      · rw [hok.2.2.1, hblock.2.1, h2]
      · rw [hok.2.1, hmid1]
  · rw [hfull]
    exact hok.2.2.2.1

theorem c2_transient_failures_recover_witness :
    (∀ e ∈ fiveFails, isFailEv e = true) ∧ fiveFails.length ≤ 5 ∧
    startState.isDetecting = true ∧ startState.error = none ∧
    startState.consecutiveErrors = 0 ∧
    ((∀ k : ℕ,
      (runFresh m0 640 480 startState
        ((fiveFails ++ [DetectEvent.respOk 600 demoPreds]).take k)).error = none ∧
      (runFresh m0 640 480 startState
        ((fiveFails ++ [DetectEvent.respOk 600 demoPreds]).take k)).isDetecting = true) ∧
     (runFresh m0 640 480 startState
       (fiveFails ++ [DetectEvent.respOk 600 demoPreds])).consecutiveErrors = 0) :=
  ⟨by decide, by decide, rfl, rfl, rfl,
   c2_transient_failures_recover m0 640 480 fiveFails (by decide) (by decide)
     startState rfl rfl rfl 600 demoPreds⟩

/-- Claim C1, evaluated at the failing input: after six consecutive failed
inference responses from a fresh session, the loop is still running, no error
has been surfaced, and the committed counter is 6 — even under the most
charitable snapshot-refresh policy (the fatal guards at lines 70 and 89 read
the render snapshot of `consecutiveErrors`, which is at most the
pre-increment value, so the sixth failure cannot trip them). -/
theorem c1_sixth_failure_does_not_stop :
    (runFresh m0 640 480 startState sixFails).isDetecting = true ∧
    (runFresh m0 640 480 startState sixFails).error = none ∧
    (runFresh m0 640 480 startState sixFails).consecutiveErrors = 6 := by decide

/-- Context for C1: under the charitable refresh policy the loop stops one
failure late, on the seventh; with the actual requestAnimationFrame closure
reuse the snapshot stays at the chain-start value and it never stops. -/
theorem seventh_failure_stops :
    (runFresh m0 640 480 startState
      (sixFails ++ [DetectEvent.respFail 700 "e7"])).isDetecting = false ∧
    (runFresh m0 640 480 startState (sixFails ++ [DetectEvent.respFail 700 "e7"])).error
      = some "Detection error: Backend error: e7" := by decide

/-- Counterexample to Claim C5 as stated: with recorded timestamps `t0 = 0`
and `t1 = 100` the code computes no fps at all — the guard at line 41 treats
the recorded value 0 as "no previous frame" — so `fps` stays 0, not 10. -/
theorem c5_counterexample_t0_zero :
    (runFresh m0 640 480 startState [DetectEvent.respOk 0 []]).lastFrameTime = 0 ∧
    (runFresh m0 640 480 startState
      [DetectEvent.respOk 0 [], DetectEvent.respOk 100 []]).fps = 0 ∧
    ((0 : ℤ) = 10 → False) := by decide

/-- Claim C5 as amended: in any cycle that reaches the timestamp block
(line 40), if the previously recorded timestamp is positive — the code
encodes "no previous frame" as 0 — then `fps = round(1000 / (now - last))`
and the new timestamp is recorded. -/
theorem c5_fps_formula (measure : String → String → ℚ) (vw vh : ℚ)
    (snap committed : CompState) (ev : DetectEvent) (now : ℚ)
    (h1 : snap.isDetecting = true) (h2 : evNow ev = some now)
    (h3 : 0 < snap.lastFrameTime) :
    (captureStep measure vw vh snap committed ev).state.fps
      = jsRound (1000 / (now - snap.lastFrameTime)) ∧
    (captureStep measure vw vh snap committed ev).state.lastFrameTime = now := by
  have hfps := fpsUpdate_fps snap committed now h3
  have hlft := (fpsUpdate_fields snap committed now).2.2.2.2
  cases ev with
  | videoNotReady => simp [evNow] at h2
  | noScreenshot t =>
      have ht : t = now := by simpa [evNow] using h2
      subst ht
      unfold captureStep
      rw [h1]
      simpa using ⟨hfps, hlft⟩
  | respFail t detail =>
      have ht : t = now := by simpa [evNow] using h2
      subst ht
      unfold captureStep
      rw [h1]
      simp only [Bool.true_eq_false, if_false]
      by_cases hg : snap.consecutiveErrors > 5
      · simpa [hg] using ⟨hfps, hlft⟩
      · simpa [hg] using ⟨hfps, hlft⟩
  | respOk t preds =>
      have ht : t = now := by simpa [evNow] using h2
      subst ht
      unfold captureStep
      rw [h1]
      simpa using ⟨hfps, hlft⟩
  | netThrow t msg =>
      have ht : t = now := by simpa [evNow] using h2
      subst ht
      unfold captureStep
      rw [h1]
      simp only [Bool.true_eq_false, if_false]
      by_cases hg : snap.consecutiveErrors > 5
      · simpa [hg] using ⟨hfps, hlft⟩
      · simpa [hg] using ⟨hfps, hlft⟩

theorem c5_fps_formula_witness :
    ({ startState with lastFrameTime := 100 } : CompState).isDetecting = true ∧
    evNow (DetectEvent.respOk 200 []) = some 200 ∧
    (0 : ℚ) < ({ startState with lastFrameTime := 100 } : CompState).lastFrameTime ∧
    ((captureStep m0 640 480 { startState with lastFrameTime := 100 } startState
        (DetectEvent.respOk 200 [])).state.fps
      = jsRound (1000 / (200 - ({ startState with lastFrameTime := 100 } :
          CompState).lastFrameTime)) ∧
     (captureStep m0 640 480 { startState with lastFrameTime := 100 } startState
        (DetectEvent.respOk 200 [])).state.lastFrameTime = 200) ∧
    jsRound (1000 / (200 - (100 : ℚ))) = 10 :=
  ⟨rfl, rfl, by decide,
   c5_fps_formula m0 640 480 { startState with lastFrameTime := 100 } startState
     (DetectEvent.respOk 200 []) 200 rfl rfl (by decide),
   by norm_num [jsRound, Rat.floor_def']⟩

/-- Claim C6: on every successful cycle the per-class counts are fully
recomputed from the current prediction set — the result does not depend on
the previously committed counts — and the spec's scenario
`[book .9, book .4, laptop .8]` yields `book = 2, laptop = 1`. -/
theorem c6_counts_recomputed (measure : String → String → ℚ) (vw vh : ℚ)
    (snap committed : CompState) (now : ℚ) (preds : List Prediction)
    (h : snap.isDetecting = true) :
    (captureStep measure vw vh snap committed
      (DetectEvent.respOk now preds)).state.detectionCount = countsOf preds ∧
    countsOf demoPreds = ⟨2, 1⟩ :=
  ⟨(captureStep_ok_fields measure vw vh snap committed now preds h).2.2.2.2.1,
   by decide⟩

theorem c6_counts_recomputed_witness :
    startState.isDetecting = true ∧
    ((captureStep m0 640 480 startState
        { startState with detectionCount := ⟨7, 9⟩ }
        (DetectEvent.respOk 0 demoPreds)).state.detectionCount = countsOf demoPreds ∧
     countsOf demoPreds = ⟨2, 1⟩) :=
  ⟨rfl, c6_counts_recomputed m0 640 480 startState
    { startState with detectionCount := ⟨7, 9⟩ } 0 demoPreds rfl⟩

/-- Claim C8: a transient (below-threshold) failed response issues no draw
commands — the renderer is not invoked, so any surface is left exactly as the
last successful cycle drew it — and the loop keeps running. -/
theorem c8_transient_failure_keeps_overlay (measure : String → String → ℚ) (vw vh : ℚ)
    (snap committed : CompState) (now : ℚ) (detail : String)
    (h1 : snap.isDetecting = true) (h2 : snap.consecutiveErrors ≤ 5) :
    (captureStep measure vw vh snap committed (DetectEvent.respFail now detail)).cmds = [] ∧
    (∀ S : Surface,
      execCmds S (captureStep measure vw vh snap committed
        (DetectEvent.respFail now detail)).cmds = S) ∧
    (captureStep measure vw vh snap committed (DetectEvent.respFail now detail)).resched
      = true ∧
    (captureStep measure vw vh snap committed
      (DetectEvent.respFail now detail)).state.isDetecting = committed.isDetecting := by
  have hstep := captureStep_fail_fields measure vw vh snap committed now detail h1 h2
  refine ⟨hstep.2.1, ?_, hstep.1, hstep.2.2.1⟩
  intro S
  rw [hstep.2.1]
  rfl

theorem c8_transient_failure_keeps_overlay_witness :
    startState.isDetecting = true ∧ startState.consecutiveErrors ≤ 5 ∧
    ((captureStep m0 640 480 startState
        { startState with consecutiveErrors := 3 }
        (DetectEvent.respFail 100 "hiccup")).cmds = [] ∧
     (∀ S : Surface,
       execCmds S (captureStep m0 640 480 startState
         { startState with consecutiveErrors := 3 }
         (DetectEvent.respFail 100 "hiccup")).cmds = S) ∧
     (captureStep m0 640 480 startState
       { startState with consecutiveErrors := 3 }
       (DetectEvent.respFail 100 "hiccup")).resched = true ∧
     (captureStep m0 640 480 startState
       { startState with consecutiveErrors := 3 }
       (DetectEvent.respFail 100 "hiccup")).state.isDetecting
       = ({ startState with consecutiveErrors := 3 } : CompState).isDetecting) :=
  ⟨rfl, by decide,
   c8_transient_failure_keeps_overlay m0 640 480 startState
     { startState with consecutiveErrors := 3 } 100 "hiccup" rfl (by decide)⟩

/-- Claim C7: the renderer first sizes the canvas to the supplied frame's
native dimensions and clears it in full, so the resulting surface is the same
whatever was drawn before — no residual shapes from a previous prediction set
survive. -/
theorem c7_render_clears_before_drawing (S : Surface) (measure : String → String → ℚ)
    (preds : List Prediction) (vw vh : ℚ) :
    execCmds S (drawDetections measure preds vw vh)
      = execCmds ⟨(vw, vh), []⟩ (drawDetections measure preds vw vh) ∧
    drawDetections measure preds vw vh
      = DrawCmd.setCanvasSize vw vh :: DrawCmd.clearRect 0 0 vw vh ::
        drawList measure initCtx preds :=
  ⟨rfl, rfl⟩

/-- Counterexample to Claim C9 as stated: for a drawn prediction of class
`cat` the rendered label text is `Laptop 80%` — the labelling code
(lines 130-133) falls back to `Laptop` for every class other than `book` —
so the label is not the prediction's class name. -/
theorem c9_counterexample_cat_label :
    labelFor catPred = "Laptop 80%" ∧
    (drawOne m0 initCtx catPred).2 =
      [DrawCmd.strokeRect "#000000" 2 0 0 10 10,
       DrawCmd.fillRect "#000000" 0 (0 - 20) (m0 initCtx.font (labelFor catPred) + 10) 20,
       DrawCmd.fillText "white" "16px Arial" (labelFor catPred) (0 + 5) (0 - 5)] ∧
    ("Laptop 80%" = "cat 80%" → False) := by
  have h80 : jsRound (4 / 5 * 100) = 80 := by norm_num [jsRound, Rat.floor_def']
  refine ⟨?_, rfl, by decide⟩
  simp only [labelFor, catPred, h80]
  decide

/-- Claim C9 as amended: for every drawn prediction whose class is `book` or
`laptop`, the label text is the capitalized class name followed by the
confidence rounded to the nearest integer percentage, drawn over a filled
background of the text's measured width plus 10 and height 20 at
`(x, y - 20)` — just above the bounding box's top-left corner — with the text
itself at `(x + 5, y - 5)`; the box is stroked in the class color. -/
theorem c9_known_class_label (measure : String → String → ℚ) (ctx : CtxState)
    (p : Prediction) (h : p.cls = "book" ∨ p.cls = "laptop") :
    labelFor p = (if p.cls = "book" then "Book" else "Laptop") ++ " "
      ++ toString (jsRound (p.score * 100)) ++ "%" ∧
    (drawOne measure ctx p).2 =
      [DrawCmd.strokeRect (if p.cls = "book" then "red" else "blue") 2
         p.bbox.1 p.bbox.2.1 p.bbox.2.2.1 p.bbox.2.2.2,
       DrawCmd.fillRect (if p.cls = "book" then "red" else "blue")
         p.bbox.1 (p.bbox.2.1 - 20) (measure ctx.font (labelFor p) + 10) 20,
       DrawCmd.fillText "white" "16px Arial" (labelFor p)
         (p.bbox.1 + 5) (p.bbox.2.1 - 5)] := by
  rcases h with h | h
  · refine ⟨?_, ?_⟩
    · simp only [labelFor, h]
      rfl
    · simp only [drawOne, labelFor, h]
      rfl
  · refine ⟨?_, ?_⟩
    · simp only [labelFor, h]
      rfl
    · simp only [drawOne, labelFor, h]
      rfl

theorem c9_known_class_label_witness :
    (("book" : String) = "book" ∨ ("book" : String) = "laptop") ∧
    (labelFor ⟨(3, 4, 5, 6), "book", 9 / 10⟩
        = (if ("book" : String) = "book" then "Book" else "Laptop") ++ " "
          ++ toString (jsRound ((9 / 10 : ℚ) * 100)) ++ "%" ∧
     (drawOne m0 initCtx ⟨(3, 4, 5, 6), "book", 9 / 10⟩).2 =
       [DrawCmd.strokeRect (if ("book" : String) = "book" then "red" else "blue") 2 3 4 5 6,
        DrawCmd.fillRect (if ("book" : String) = "book" then "red" else "blue") 3 (4 - 20)
          (m0 initCtx.font (labelFor ⟨(3, 4, 5, 6), "book", 9 / 10⟩) + 10) 20,
        DrawCmd.fillText "white" "16px Arial" (labelFor ⟨(3, 4, 5, 6), "book", 9 / 10⟩)
          (3 + 5) (4 - 5)]) :=
  ⟨Or.inl rfl, c9_known_class_label m0 initCtx ⟨(3, 4, 5, 6), "book", 9 / 10⟩ (Or.inl rfl)⟩

/-- Claim C10: the per-class count record has exactly the fields `book` and
`laptop` (the type `DetectionCount`), the counts are the filtered lengths for
those two class labels, and predictions of any other class never affect
either count: the counts of a prediction list equal the counts of its
restriction to `book`/`laptop` predictions, and prepending a prediction of
any other class leaves the counts unchanged. -/
theorem c10_only_book_laptop_counted :
    (∀ preds : List Prediction,
      countsOf preds
        = countsOf (preds.filter (fun p => p.cls == "book" || p.cls == "laptop"))) ∧
    (∀ (preds : List Prediction) (q : Prediction),
      q.cls ≠ "book" → q.cls ≠ "laptop" → countsOf (q :: preds) = countsOf preds) := by
  constructor
  · intro preds
    have key : ∀ c : String, (c = "book" ∨ c = "laptop") →
        countClass (preds.filter (fun p => p.cls == "book" || p.cls == "laptop")) c
          = countClass preds c := by
      intro c hc
      unfold countClass
      rw [← List.countP_eq_length_filter, ← List.countP_eq_length_filter,
        List.countP_filter]
      refine List.countP_congr ?_
      intro p _
      rcases hc with hc | hc <;> subst hc <;>
        cases hcb : (p.cls == "book") <;> cases hcl : (p.cls == "laptop") <;> simp_all
    unfold countsOf
    rw [key "book" (Or.inl rfl), key "laptop" (Or.inr rfl)]
  · intro preds q h1 h2
    unfold countsOf countClass
    have hb : (q.cls == "book") = false := by
      cases hx : (q.cls == "book")
      · rfl
      · exact absurd (by simpa using hx) h1
    have hl : (q.cls == "laptop") = false := by
      cases hx : (q.cls == "laptop")
      · rfl
      · exact absurd (by simpa using hx) h2
    simp [List.filter_cons, hb, hl]

theorem c10_only_book_laptop_counted_witness :
    catPred.cls ≠ "book" ∧ catPred.cls ≠ "laptop" ∧
    countsOf (catPred :: demoPreds) = countsOf demoPreds :=
  ⟨by decide, by decide,
   c10_only_book_laptop_counted.2 demoPreds catPred (by decide) (by decide)⟩

/-- Non-terminal readiness happenings never remove the first invocation's
watchdog: a not-loaded response only appends a poll timer, and a firing poll
removes a poll timer and appends a fresh watchdog. -/
theorem applyPre_keeps_watchdog (sys : RSys) (p : PreStep)
    (h : (⟨0, 30000, TKind.watchdogT⟩ : Tmr) ∈ sys.timers) :
    (⟨0, 30000, TKind.watchdogT⟩ : Tmr) ∈ (applyPre sys p).timers := by
  cases p with
  | notLoaded t =>
      simp only [applyPre, resolveNotLoaded]
      exact List.mem_append.mpr (Or.inl h)
  | poll t tid =>
      simp only [applyPre, pollFire, checkBackendStart]
      refine List.mem_append.mpr (Or.inl ?_)
      refine List.mem_filter.mpr ⟨h, ?_⟩
      simp

theorem foldl_applyPre_keeps_watchdog :
    ∀ (steps : List PreStep) (sys : RSys),
      (⟨0, 30000, TKind.watchdogT⟩ : Tmr) ∈ sys.timers →
      (⟨0, 30000, TKind.watchdogT⟩ : Tmr) ∈ (steps.foldl applyPre sys).timers
  | [], _, h => h
  | p :: ps, sys, h =>
      foldl_applyPre_keeps_watchdog ps (applyPre sys p) (applyPre_keeps_watchdog sys p h)

/-- Claim C3 as amended: whatever non-terminal network activity (not-loaded
health responses, 2000 ms polls) happens after the first `checkBackend` call,
the watchdog armed by that call is still pending at its 30000 ms deadline,
and its firing forces `backendStatus = "ready"`, starts detection and clears
the error, whatever `loadingTimeout` snapshot the firing closure holds —
pending polls, however, are not cancelled (see the counterexample). -/
theorem c3_watchdog_forces_ready (steps : List PreStep) (snapLT : Option ℕ) :
    (⟨0, 30000, TKind.watchdogT⟩ : Tmr) ∈ (steps.foldl applyPre sysAfterFirstCall).timers ∧
    (watchdogFire 0 snapLT (steps.foldl applyPre sysAfterFirstCall)).st.backendStatus
      = "ready" ∧
    (watchdogFire 0 snapLT (steps.foldl applyPre sysAfterFirstCall)).st.isDetecting = true ∧
    (watchdogFire 0 snapLT (steps.foldl applyPre sysAfterFirstCall)).st.error = none := by
  refine ⟨foldl_applyPre_keeps_watchdog steps sysAfterFirstCall (by decide), ?_⟩
  cases snapLT with
  | none => exact ⟨rfl, rfl, rfl⟩
  | some j => exact ⟨rfl, rfl, rfl⟩

/-- Counterexample to Claim C3 as stated: first `checkBackend` call at t = 0,
one not-loaded health response at t = 28500 scheduling a poll for t = 30500.
After the watchdog fires at t = 30000 (state becomes ready), the poll timer
is still pending — polling is not cancelled — and when it fires it re-enters
`checkBackend`, overwriting the status with `connecting`. -/
theorem c3_counterexample_poll_survives :
    (watchdogFire 0 none (applyPre sysAfterFirstCall (PreStep.notLoaded 28500))).st.backendStatus
      = "ready" ∧
    (⟨1, 30500, TKind.pollT⟩ : Tmr) ∈
      (watchdogFire 0 none (applyPre sysAfterFirstCall (PreStep.notLoaded 28500))).timers ∧
    (pollFire 30500 1
      (watchdogFire 0 none (applyPre sysAfterFirstCall (PreStep.notLoaded 28500)))).st.backendStatus
      = "connecting" ∧
    (("connecting" : String) = "ready" → False) := by decide

/-- Claim C4, evaluated at the failing input: the first `checkBackend`
invocation (mount effect, at t = 0) arms watchdog 0 and then receives a
successful health response reporting the model loaded.  The state is set
ready, but the clearing guard at line 181 reads the closure's render snapshot
of `loadingTimeout` — `null`, since the snapshot predates this invocation's
`setLoadingTimeout` — so the watchdog armed by this same invocation is NOT
cancelled and is still pending. -/
theorem c4_loaded_leaves_watchdog_armed :
    (resolveLoaded none sysAfterFirstCall).st.backendStatus = "ready" ∧
    (resolveLoaded none sysAfterFirstCall).st.isDetecting = true ∧
    (resolveLoaded none sysAfterFirstCall).st.isModelLoading = false ∧
    (⟨0, 30000, TKind.watchdogT⟩ : Tmr) ∈ (resolveLoaded none sysAfterFirstCall).timers := by
  decide
